import Mathlib

/-!
# The command-tree executor of the mini shell (cmd.c)

A shallow embedding of `cmd.c`: the functions `shell_cd`, `shell_exit`,
`parse_simple`, `run_in_parallel`, `run_on_pipe` and `parse_command` become
Lean functions that pass the state of the calling process (`Proc`) and the
trace of the system calls made so far (`World`) explicitly.

Conventions of the embedding.

* A C pointer that the code compares with `NULL` is a type with a `NULL`
  constructor (`word_t`, `command_t`) or an `Option`.
* `int` results are `Int`; a wait status filled in by `waitpid` is a `Nat`
  decoded by `WEXITSTATUS` as in `sys/wait.h`.
* `bool` is the C boolean of `stdbool.h`: converting an integer to it gives
  0 for 0 and 1 for everything else (`bool_of_int`).
* `fork` gives the child a copy of `Proc`; everything the child does to its
  copy is dropped when the child ends, only the trace is shared. The two
  children of a parallel or pipe node are run one after the other, the left
  one first, which is one of the admissible schedules.
* `fork`, `pipe` and `waitpid` are taken to succeed; the code does not test
  their results.
* `exit` ends the process: the outcome `Outcome.exit` is passed up to the
  place where the process was forked (or to the caller of the root).
* What the headers `cmd.h` and `utils.h` declare is not part of the sources;
  the constants and helpers taken from them are the fields of `Ctx`, together
  with the answers of the operating system.
-/

namespace Cmd

/-! ## Constants of the C library -/

/-- The value of `EXIT_SUCCESS` in `stdlib.h`. -/
def EXIT_SUCCESS : Int := 0

/-- The value of `EXIT_FAILURE` in `stdlib.h`. -/
def EXIT_FAILURE : Int := 1

/-- Index of the read end of a pipe, `#define READ 0`. -/
def READ : Nat := 0

/-- Index of the write end of a pipe, `#define WRITE 1`. -/
def WRITE : Nat := 1

/-- Descriptor number of the standard input. -/
def STDIN_FILENO : Nat := 0

/-- Descriptor number of the standard output. -/
def STDOUT_FILENO : Nat := 1

/-- Descriptor number of the standard error stream. -/
def STDERR_FILENO : Nat := 2

/-- The flag `O_RDONLY` of `fcntl.h` (Linux). -/
def O_RDONLY : Nat := 0

/-- The flag `O_WRONLY` of `fcntl.h` (Linux). -/
def O_WRONLY : Nat := 1

/-- The flag `O_CREAT` of `fcntl.h` (Linux, octal 100). -/
def O_CREAT : Nat := 64

/-- The flag `O_TRUNC` of `fcntl.h` (Linux, octal 1000). -/
def O_TRUNC : Nat := 512

/-- The flag `O_APPEND` of `fcntl.h` (Linux, octal 2000). -/
def O_APPEND : Nat := 1024

/-- Number of the signal a process receives on an invalid memory access. -/
def SIGSEGV : Nat := 11

/-- The macro `WEXITSTATUS`: bits 8 to 15 of a wait status. -/
def WEXITSTATUS (status : Nat) : Int := ((status / 256 % 256 : Nat) : Int)

/-- The macro `WTERMSIG`: the low seven bits of a wait status. -/
def WTERMSIG (status : Nat) : Nat := status % 128

/-- The macro `WIFEXITED`: the process ended through `exit` or a return. -/
def WIFEXITED (status : Nat) : Bool := WTERMSIG status = 0

/-- The macro `WIFSIGNALED`: the process was ended by a signal. -/
def WIFSIGNALED (status : Nat) : Bool := 0 < WTERMSIG status ∧ WTERMSIG status < 127

/-- The wait status of a process that ended through `exit(code)`: the low
byte of the code, stored in bits 8 to 15. -/
def W_EXITCODE (code : Int) : Nat := (code % 256).toNat * 256

/-- Conversion of an `int` to the C type `bool`. -/
def bool_of_int (v : Int) : Int := if v = 0 then 0 else 1

/-! ## The command tree -/

/-- The struct `word_t`: a part of a word, the rest of the word
(`next_part`) and the next word of the list (`next_word`). -/
inductive word_t where
  | NULL : word_t
  | mk (string : Option String) (expand : Bool) (next_part : word_t)
      (next_word : word_t) : word_t
deriving DecidableEq, Repr

/-- The struct `simple_command_t`, with the fields `cmd.c` reads. The field
`in` of the C struct is called `in_` here. -/
structure simple_command_t where
  verb : word_t
  params : word_t
  in_ : word_t
  out : word_t
  err : word_t
  io_flags : Nat
deriving DecidableEq, Repr

/-- The enumeration `operator_t`. Its declaration is not part of the sources:
the six tags `cmd.c` names are constructors, every other value of the C
enumeration is `unknown`. -/
inductive operator_t where
  | OP_NONE
  | OP_SEQUENTIAL
  | OP_PARALLEL
  | OP_CONDITIONAL_ZERO
  | OP_CONDITIONAL_NZERO
  | OP_PIPE
  | unknown (tag : Int)
deriving DecidableEq, Repr

/-- A pointer to the struct `command_t`, with the fields `cmd.c` reads. -/
inductive command_t where
  | NULL : command_t
  | mk (op : operator_t) (scmd : Option simple_command_t)
      (cmd1 cmd2 : command_t) : command_t
deriving DecidableEq, Repr

/-! ## Processes and the trace -/

/-- The state a process owns and `fork` copies: the working directory and
the environment table. -/
structure Proc where
  cwd : String
  env : List (String × String)
deriving DecidableEq, Repr

/-- One system call (or library call with an outside effect) of the shell.
The descriptor of `sys_close` and `sys_dup2` is the one returned by the
latest `sys_open` of the same process; the descriptors of `pipe_close` and
`pipe_dup2` are the ends of the latest pipe. -/
inductive Event where
  | sys_open (path : String) (flags : Nat) (mode : Option Nat)
  | sys_close
  | sys_dup2 (newfd : Nat)
  | sys_pipe
  | pipe_close (side : Nat)
  | pipe_dup2 (side : Nat) (newfd : Nat)
  | sys_fork
  | sys_chdir (path : String)
  | sys_execvp (argv : List String)
  | exec_failed (name : String)
deriving DecidableEq, Repr

/-- The trace of events so far, the oldest first. -/
abbrev World := List Event

/-- How a call ends: it returns a value, the process calls `exit`, or the
process dereferences a `NULL` pointer. -/
inductive Outcome where
  | ret (r : Int)
  | exit (code : Int)
  | fault
deriving DecidableEq, Repr

/-- The outcome of a call with the state of the process and the trace. -/
structure Result where
  out : Outcome
  proc : Proc
  world : World
deriving DecidableEq, Repr

/-- Continue with `k` when the call returned; an `exit` or a fault ends the
process and is passed on. -/
def Result.andThen (r : Result) (k : Int → Proc → World → Result) : Result :=
  match r.out with
  | .ret v => k v r.proc r.world
  | _ => r

/-- What `cmd.c` takes from outside: the constants and helpers of the headers
that are not part of the sources, and the answers of the operating system.

* `SHELL_EXIT`, `IO_OUT_APPEND`, `IO_ERR_APPEND`: constants of `cmd.h`.
* `get_word`, `get_argv`: helpers of `utils.h`, given the environment.
* `chdir path p w`: the new working directory, or `none` when `chdir` fails.
* `execvp argv p w`: `none` when the program cannot be executed, else the
  wait status `waitpid` reports once the program has ended.
* `signal w`: the signal that ends a freshly forked copy of the shell before
  it does anything, `none` when it runs until its `exit`. -/
structure Ctx where
  SHELL_EXIT : Int
  IO_OUT_APPEND : Nat
  IO_ERR_APPEND : Nat
  get_word : List (String × String) → word_t → String
  get_argv : List (String × String) → simple_command_t → List String
  chdir : String → Proc → World → Option String
  execvp : List String → Proc → World → Option Nat
  signal : World → Option Nat

/-- The library function `getenv` on the environment table. -/
def getenv (env : List (String × String)) (name : String) : Option String :=
  env.lookup name

/-- The library function `setenv(name, value, 1)`: it fails for a `NULL` or
empty name and for a name with an equals sign, else it replaces the entry. -/
def setenv (name : Option String) (value : String)
    (env : List (String × String)) : Option (List (String × String)) :=
  match name with
  | none => none
  | some n =>
    if n = "" ∨ '=' ∈ n.toList then none
    else some ((n, value) :: env.filter (fun e => e.1 ≠ n))

/-! ## The functions of cmd.c -/

/-- The function `shell_cd` (lines 22 to 41). The result is a `bool`. -/
def shell_cd (cx : Ctx) (dir : word_t) (p : Proc) (w : World) : Result :=
  if dir ≠ word_t.NULL then
    let path := cx.get_word p.env dir
    match cx.chdir path p w with
    | none => ⟨.ret (bool_of_int EXIT_FAILURE), p, w ++ [.sys_chdir path]⟩
    | some d =>
      ⟨.ret (bool_of_int EXIT_SUCCESS), { p with cwd := d }, w ++ [.sys_chdir path]⟩
  else
    match getenv p.env "HOME" with
    | none => ⟨.ret (bool_of_int EXIT_FAILURE), p, w⟩
    | some home =>
      match cx.chdir home p w with
      | none => ⟨.ret (bool_of_int EXIT_FAILURE), p, w ++ [.sys_chdir home]⟩
      | some d =>
        ⟨.ret (bool_of_int EXIT_SUCCESS), { p with cwd := d }, w ++ [.sys_chdir home]⟩

/-- The function `shell_exit` (lines 46 to 49): the process ends. -/
def shell_exit (p : Proc) (w : World) : Result :=
  ⟨.exit EXIT_SUCCESS, p, w⟩

/-- The test of lines 77 to 80: the verb has a second part whose string is
an equals sign. The result is the string of the first part and the parts
after the sign. -/
def assignment (verb : word_t) : Option (Option String × word_t) :=
  match verb with
  | .mk var _ (.mk (some eq) _ value _) _ => if eq = "=" then some (var, value) else none
  | _ => none

/-- The flags of the output file, lines 111 to 116. -/
def out_flags (cx : Ctx) (io_flags : Nat) : Nat :=
  if io_flags &&& cx.IO_OUT_APPEND ≠ 0 then (O_CREAT ||| O_WRONLY) ||| O_APPEND
  else (O_CREAT ||| O_WRONLY) ||| O_TRUNC

/-- The flags of the error file, lines 123 to 128. -/
def err_flags (cx : Ctx) (io_flags : Nat) : Nat :=
  if io_flags &&& cx.IO_ERR_APPEND ≠ 0 then (O_CREAT ||| O_WRONLY) ||| O_APPEND
  else if io_flags &&& cx.IO_OUT_APPEND = 0 then (O_CREAT ||| O_WRONLY) ||| O_TRUNC
  else O_CREAT ||| O_WRONLY

/-- The redirection of output and error in the child of an external command,
lines 101 to 133: the events it adds to the trace. -/
def output_redirection (cx : Ctx) (s : simple_command_t)
    (env : List (String × String)) : List Event :=
  if s.out ≠ word_t.NULL ∧ s.err ≠ word_t.NULL ∧
      cx.get_word env s.out = cx.get_word env s.err then
    [.sys_open (cx.get_word env s.out) (O_CREAT ||| O_TRUNC ||| O_WRONLY) (some 0o666),
     .sys_dup2 STDOUT_FILENO, .sys_dup2 STDERR_FILENO]
  else
    (if s.out ≠ word_t.NULL then
      [.sys_open (cx.get_word env s.out) (out_flags cx s.io_flags) (some 0o666),
       .sys_dup2 STDOUT_FILENO]
     else []) ++
    (if s.err ≠ word_t.NULL then
      [.sys_open (cx.get_word env s.err) (err_flags cx s.io_flags) (some 0o666),
       .sys_dup2 STDERR_FILENO]
     else [])

/-- The child of an external command, lines 92 to 140: the wait status the
parent receives and the trace once the child has ended. -/
def parse_simple_child (cx : Ctx) (s : simple_command_t) (p : Proc) (w : World) :
    Nat × World :=
  let argv := cx.get_argv p.env s
  let w1 := if s.in_ ≠ word_t.NULL then
      w ++ [.sys_open (cx.get_word p.env s.in_) O_RDONLY none, .sys_dup2 STDIN_FILENO]
    else w
  let w2 := w1 ++ output_redirection cx s p.env ++ [.sys_execvp argv]
  match cx.execvp argv p w2 with
  | some status => (status, w2)
  | none => (W_EXITCODE EXIT_FAILURE, w2 ++ [.exec_failed (argv.headD "")])

/-- The function `parse_simple` (lines 55 to 144). The parameters `level`
and `father` are not read. -/
def parse_simple (cx : Ctx) (s : Option simple_command_t) (_level : Int)
    (_father : command_t) (p : Proc) (w : World) : Result :=
  match s with
  | none => ⟨.fault, p, w⟩
  | some s =>
    let c := cx.get_word p.env s.verb
    if c = "true" then ⟨.ret EXIT_SUCCESS, p, w⟩
    else if c = "false" then ⟨.ret EXIT_FAILURE, p, w⟩
    else if c = "cd" then
      let w1 := if s.out ≠ word_t.NULL then
          w ++ [.sys_open (cx.get_word p.env s.out) (O_WRONLY ||| O_CREAT ||| O_TRUNC)
            (some 0o644), .sys_close]
        else w
      let w2 := if s.err ≠ word_t.NULL then
          w1 ++ [.sys_open (cx.get_word p.env s.err) (O_WRONLY ||| O_CREAT ||| O_TRUNC)
            (some 0o644), .sys_close]
        else w1
      shell_cd cx s.params p w2
    else if c = "exit" ∨ c = "quit" then shell_exit p w
    else
      match assignment s.verb with
      | some (var, value) =>
        match setenv var (cx.get_word p.env value) p.env with
        | none => ⟨.ret EXIT_FAILURE, p, w⟩
        | some env => ⟨.ret EXIT_SUCCESS, { p with env := env }, w⟩
      | none =>
        let child := parse_simple_child cx s p (w ++ [.sys_fork])
        ⟨.ret (WEXITSTATUS child.1), p, child.2⟩

/-- A call of `fork` whose child runs `child` on its copy of the process
state, seen from the parent: the wait status `waitpid` later reports for this
child and the trace once the child has ended. -/
def fork (cx : Ctx) (child : Proc → World → Result) (p : Proc) (w : World) :
    Nat × World :=
  match cx.signal (w ++ [.sys_fork]) with
  | some sig => (sig % 128, w ++ [.sys_fork])
  | none =>
    let r := child p (w ++ [.sys_fork])
    match r.out with
    | .ret v => (W_EXITCODE v, r.world)
    | .exit v => (W_EXITCODE v, r.world)
    | .fault => (SIGSEGV, r.world)

/-- The body of a child of `run_in_parallel`, lines 157 and 161: the
statement `exit(parse_command(cmd, level, father))`, where `cmd` is the call
of `parse_command`. -/
def exit_after (cmd : Proc → World → Result) (q : Proc) (v : World) : Result :=
  (cmd q v).andThen fun r q1 v1 => ⟨.exit r, q1, v1⟩

/-- The function `run_in_parallel` (lines 149 to 171). The arguments `cmd1`
and `cmd2` are the calls `parse_command(cmd1, level, father)` and
`parse_command(cmd2, level, father)`. The result is a `bool`. -/
def run_in_parallel (cx : Ctx) (cmd1 cmd2 : Proc → World → Result)
    (p : Proc) (w : World) : Result :=
  let c0 := fork cx (exit_after cmd1) p w
  let c1 := fork cx (exit_after cmd2) p c0.2
  if WEXITSTATUS c0.1 = EXIT_SUCCESS ∧ WEXITSTATUS c1.1 = EXIT_SUCCESS then
    ⟨.ret (bool_of_int EXIT_SUCCESS), p, c1.2⟩
  else ⟨.ret (bool_of_int EXIT_FAILURE), p, c1.2⟩

/-- The body of a child of `run_on_pipe`, lines 184 to 191 and 194 to 201:
the child closes the end of the pipe it does not use, binds the end `side`
to the descriptor `newfd`, runs the call `cmd` of `parse_command`, closes its
end and calls `exit` with the result. -/
def pipe_side (side newfd : Nat) (cmd : Proc → World → Result) (q : Proc)
    (v : World) : Result :=
  (cmd q (v ++ [.pipe_close (1 - side), .pipe_dup2 side newfd])).andThen
    fun r q1 v1 => ⟨.exit r, q1, v1 ++ [.pipe_close side]⟩

/-- The function `run_on_pipe` (lines 176 to 212). The arguments `cmd1` and
`cmd2` are the calls `parse_command(cmd1, level, father)` and
`parse_command(cmd2, level, father)`. The variable `r` is written by both
calls of `waitpid`, the second one last. The result is a `bool`. -/
def run_on_pipe (cx : Ctx) (cmd1 cmd2 : Proc → World → Result)
    (p : Proc) (w : World) : Result :=
  let c0 := fork cx (pipe_side WRITE STDOUT_FILENO cmd1) p (w ++ [.sys_pipe])
  let c1 := fork cx (pipe_side READ STDIN_FILENO cmd2) p c0.2
  ⟨.ret (bool_of_int (WEXITSTATUS c1.1)), p, c1.2 ++ [.pipe_close READ, .pipe_close WRITE]⟩

/-- The function `parse_command` (lines 217 to 255). -/
def parse_command (cx : Ctx) (c : command_t) (level : Int) (father : command_t)
    (p : Proc) (w : World) : Result :=
  match c with
  | .NULL => ⟨.fault, p, w⟩
  | .mk op scmd cmd1 cmd2 =>
    if op = .OP_NONE then parse_simple cx scmd level father p w
    else
      match op with
      | .OP_SEQUENTIAL =>
        (parse_command cx cmd1 (level + 1) c p w).andThen fun _ p1 w1 =>
          parse_command cx cmd2 (level + 1) c p1 w1
      | .OP_PARALLEL =>
        run_in_parallel cx (parse_command cx cmd1 (level + 1) c)
          (parse_command cx cmd2 (level + 1) c) p w
      | .OP_CONDITIONAL_NZERO =>
        (parse_command cx cmd1 (level + 1) c p w).andThen fun r p1 w1 =>
          if r = EXIT_FAILURE then parse_command cx cmd2 (level + 1) c p1 w1
          else ⟨.ret r, p1, w1⟩
      | .OP_CONDITIONAL_ZERO =>
        (parse_command cx cmd1 (level + 1) c p w).andThen fun r p1 w1 =>
          if r = EXIT_SUCCESS then parse_command cx cmd2 (level + 1) c p1 w1
          else ⟨.ret r, p1, w1⟩
      | .OP_PIPE =>
        run_on_pipe cx (parse_command cx cmd1 (level + 1) c)
          (parse_command cx cmd2 (level + 1) c) p w
      | _ => ⟨.ret cx.SHELL_EXIT, p, w⟩

/-! ## A concrete context for evaluating the functions -/

/-- Modelled from the spec: `get_word` of `utils.h` is not part of the
sources; the spec calls it a flattening step. The parts of a word are
concatenated, a part marked for expansion being replaced by the value of the
variable it names (the empty string when the variable is unset). -/
def get_word_std (env : List (String × String)) : word_t → String
  | .NULL => ""
  | .mk s e next_part _ =>
    (if e then (getenv env (s.getD "")).getD "" else s.getD "") ++ get_word_std env next_part

/-- The words of a list of words, each flattened by `get_word_std`. -/
def get_words_std (env : List (String × String)) : word_t → List String
  | .NULL => []
  | .mk s e next_part next_word =>
    get_word_std env (.mk s e next_part .NULL) :: get_words_std env next_word

/-- Modelled from the spec: `get_argv` of `utils.h` is not part of the
sources; the spec calls the argument vector flattened: the verb followed by
the argument words. -/
def get_argv_std (env : List (String × String)) (s : simple_command_t) : List String :=
  get_word_std env s.verb :: get_words_std env s.params

/-- A context for evaluation: `SHELL_EXIT` is -100, the append flags are the
bits 1 and 2, the only directory is `/tmp`, the program `ls /nonexistent`
ends with status 2, `echo` ends with status 0 whatever its arguments, no
other program can be executed, and no forked shell is ended by a signal. -/
def demo : Ctx where
  SHELL_EXIT := -100
  IO_OUT_APPEND := 1
  IO_ERR_APPEND := 2
  get_word := get_word_std
  get_argv := get_argv_std
  chdir := fun path _ _ => if path = "/tmp" then some "/tmp" else none
  execvp := fun argv _ _ =>
    if argv = ["ls", "/nonexistent"] then some (W_EXITCODE 2)
    else if argv.head? = some "echo" then some (W_EXITCODE 0)
    else none
  signal := fun _ => none

/-- The context `demo`, except that the first process forked from an empty
trace is ended by signal 9 (SIGKILL). -/
def demo_kill : Ctx :=
  { demo with signal := fun w => if w = [Event.sys_fork] then some 9 else none }

/-- A word of one part that is not expanded. -/
def word (s : String) : word_t := .mk (some s) false .NULL .NULL

/-- A word of one part followed by the words `next`. -/
def word_then (s : String) (next : word_t) : word_t := .mk (some s) false .NULL next

/-- A simple command without redirection. -/
def simple (verb : String) (params : word_t) : simple_command_t :=
  { verb := word verb, params := params, in_ := .NULL, out := .NULL, err := .NULL,
    io_flags := 0 }

/-- A leaf of the command tree: the operator is `OP_NONE`. -/
def leaf (s : simple_command_t) : command_t := .mk .OP_NONE (some s) .NULL .NULL

/-- A process in the root directory with an empty environment. -/
def proc0 : Proc := { cwd := "/", env := [] }


/-- The test whether the flag word `flags` holds every bit of `flag`. -/
def has_flag (flags flag : Nat) : Bool := flags &&& flag = flag

/-- The command `echo hi >> out.txt 2> err.txt`: only the append flag of the
output is set. -/
def append_out_cmd : simple_command_t :=
  { verb := word "echo", params := word "hi", in_ := .NULL, out := word "out.txt",
    err := word "err.txt", io_flags := 1 }

/-- The command `cd > out.txt 2> err.txt`, without a directory. -/
def cd_redirected : simple_command_t :=
  { verb := word "cd", params := .NULL, in_ := .NULL, out := word "out.txt",
    err := word "err.txt", io_flags := 0 }

/-- The tree of `ls /nonexistent || echo hi`. -/
def or_example : command_t :=
  .mk .OP_CONDITIONAL_NZERO none (leaf (simple "ls" (word "/nonexistent")))
    (leaf (simple "echo" (word "hi")))

/-- The tree of `echo hi | ls /nonexistent`. -/
def pipe_example : command_t :=
  .mk .OP_PIPE none (leaf (simple "echo" (word "hi")))
    (leaf (simple "ls" (word "/nonexistent")))

/-- The tree of `echo hi & true`. -/
def parallel_example : command_t :=
  .mk .OP_PARALLEL none (leaf (simple "echo" (word "hi"))) (leaf (simple "true" .NULL))

/-- A node whose operator tag is none of the six tags `cmd.c` names, over
the children `cd /tmp` and `echo hi`. -/
def malformed_example : command_t :=
  .mk (.unknown 6) none (leaf (simple "cd" (word "/tmp"))) (leaf (simple "echo" (word "hi")))


/-- The leaf of the assignment `X=hi`. -/
def assign_example : command_t :=
  leaf { verb := .mk (some "X") false (.mk (some "=") false (word "hi") .NULL) .NULL,
         params := .NULL, in_ := .NULL, out := .NULL, err := .NULL, io_flags := 0 }

/-- The leaf of `echo $X`: the argument word is expanded from the
environment. -/
def echo_var_example : command_t :=
  leaf { verb := word "echo", params := .mk (some "X") true .NULL .NULL, in_ := .NULL,
         out := .NULL, err := .NULL, io_flags := 0 }

/-! ## Unfolding lemmas -/

theorem andThen_ret (v : Int) (q : Proc) (x : World) (k : Int → Proc → World → Result) :
    Result.andThen ⟨.ret v, q, x⟩ k = k v q x := rfl

theorem parse_simple_true (cx : Ctx) (s : simple_command_t) (level : Int)
    (father : command_t) (p : Proc) (w : World)
    (h : cx.get_word p.env s.verb = "true") :
    parse_simple cx (some s) level father p w = ⟨.ret 0, p, w⟩ := by
  simp [parse_simple, h, EXIT_SUCCESS]

theorem parse_simple_false (cx : Ctx) (s : simple_command_t) (level : Int)
    (father : command_t) (p : Proc) (w : World)
    (h : cx.get_word p.env s.verb = "false") :
    parse_simple cx (some s) level father p w = ⟨.ret 1, p, w⟩ := by
  simp [parse_simple, h, EXIT_FAILURE]

theorem parse_command_leaf (cx : Ctx) (s : simple_command_t) (level : Int)
    (father : command_t) (p : Proc) (w : World) :
    parse_command cx (leaf s) level father p w = parse_simple cx (some s) level father p w :=
  rfl

theorem parse_command_sequential (cx : Ctx) (scmd : Option simple_command_t)
    (A B : command_t) (level : Int) (father : command_t) (p : Proc) (w : World) :
    parse_command cx (.mk .OP_SEQUENTIAL scmd A B) level father p w =
      (parse_command cx A (level + 1) (.mk .OP_SEQUENTIAL scmd A B) p w).andThen
        fun _ p1 w1 => parse_command cx B (level + 1) (.mk .OP_SEQUENTIAL scmd A B) p1 w1 :=
  rfl

theorem parse_command_conditional_zero (cx : Ctx) (scmd : Option simple_command_t)
    (A B : command_t) (level : Int) (father : command_t) (p : Proc) (w : World) :
    parse_command cx (.mk .OP_CONDITIONAL_ZERO scmd A B) level father p w =
      (parse_command cx A (level + 1) (.mk .OP_CONDITIONAL_ZERO scmd A B) p w).andThen
        fun r p1 w1 =>
          if r = EXIT_SUCCESS then
            parse_command cx B (level + 1) (.mk .OP_CONDITIONAL_ZERO scmd A B) p1 w1
          else ⟨.ret r, p1, w1⟩ :=
  rfl

theorem parse_command_conditional_nzero (cx : Ctx) (scmd : Option simple_command_t)
    (A B : command_t) (level : Int) (father : command_t) (p : Proc) (w : World) :
    parse_command cx (.mk .OP_CONDITIONAL_NZERO scmd A B) level father p w =
      (parse_command cx A (level + 1) (.mk .OP_CONDITIONAL_NZERO scmd A B) p w).andThen
        fun r p1 w1 =>
          if r = EXIT_FAILURE then
            parse_command cx B (level + 1) (.mk .OP_CONDITIONAL_NZERO scmd A B) p1 w1
          else ⟨.ret r, p1, w1⟩ :=
  rfl

theorem parse_command_parallel (cx : Ctx) (scmd : Option simple_command_t)
    (A B : command_t) (level : Int) (father : command_t) (p : Proc) (w : World) :
    parse_command cx (.mk .OP_PARALLEL scmd A B) level father p w =
      run_in_parallel cx (parse_command cx A (level + 1) (.mk .OP_PARALLEL scmd A B))
        (parse_command cx B (level + 1) (.mk .OP_PARALLEL scmd A B)) p w :=
  rfl

theorem parse_command_pipe (cx : Ctx) (scmd : Option simple_command_t)
    (A B : command_t) (level : Int) (father : command_t) (p : Proc) (w : World) :
    parse_command cx (.mk .OP_PIPE scmd A B) level father p w =
      run_on_pipe cx (parse_command cx A (level + 1) (.mk .OP_PIPE scmd A B))
        (parse_command cx B (level + 1) (.mk .OP_PIPE scmd A B)) p w :=
  rfl

/-! ## Sequential and conditional nodes -/

/-- C4. A sequential node runs its left child; once the left child has
returned, with whatever status, the node is the run of the right child from
the state the left child left, so the right child is always run and its
result is the result of the node. In particular a sequence of `false` and
`true` returns 0 and a sequence of `true` and `false` returns 1. -/
theorem sequential_returns_right (cx : Ctx) (level : Int) (father : command_t)
    (p : Proc) (w : World) :
    (∀ (scmd : Option simple_command_t) (A B : command_t) (ra : Int) (p1 : Proc)
        (w1 : World),
      parse_command cx A (level + 1) (.mk .OP_SEQUENTIAL scmd A B) p w = ⟨.ret ra, p1, w1⟩ →
      parse_command cx (.mk .OP_SEQUENTIAL scmd A B) level father p w =
        parse_command cx B (level + 1) (.mk .OP_SEQUENTIAL scmd A B) p1 w1) ∧
    (∀ (scmd : Option simple_command_t) (st sf : simple_command_t),
      cx.get_word p.env st.verb = "true" → cx.get_word p.env sf.verb = "false" →
      parse_command cx (.mk .OP_SEQUENTIAL scmd (leaf sf) (leaf st)) level father p w =
        ⟨.ret 0, p, w⟩ ∧
      parse_command cx (.mk .OP_SEQUENTIAL scmd (leaf st) (leaf sf)) level father p w =
        ⟨.ret 1, p, w⟩) := by
  have main : ∀ (scmd : Option simple_command_t) (A B : command_t) (ra : Int) (p1 : Proc)
      (w1 : World),
      parse_command cx A (level + 1) (.mk .OP_SEQUENTIAL scmd A B) p w = ⟨.ret ra, p1, w1⟩ →
      parse_command cx (.mk .OP_SEQUENTIAL scmd A B) level father p w =
        parse_command cx B (level + 1) (.mk .OP_SEQUENTIAL scmd A B) p1 w1 := by
    intro scmd A B ra p1 w1 hA
    rw [parse_command_sequential, hA, andThen_ret]
  refine ⟨main, ?_⟩
  intro scmd st sf ht hf
  constructor
  · rw [main scmd (leaf sf) (leaf st) 1 p w, parse_command_leaf,
      parse_simple_true cx st _ _ p w ht]
    rw [parse_command_leaf, parse_simple_false cx sf _ _ p w hf]
  · rw [main scmd (leaf st) (leaf sf) 0 p w, parse_command_leaf,
      parse_simple_false cx sf _ _ p w hf]
    rw [parse_command_leaf, parse_simple_true cx st _ _ p w ht]

/-- C4, at a concrete input: the sequence of `cd /tmp` and `echo hi` runs
`echo hi` in the directory the left child changed to, and the sequences of
`false`, `true` and of `true`, `false` return 0 and 1. -/
theorem sequential_returns_right_witness :
    parse_command demo
        (.mk .OP_SEQUENTIAL none (leaf (simple "cd" (word "/tmp")))
          (leaf (simple "echo" (word "hi")))) 0 .NULL proc0 [] =
      ⟨.ret 0, { cwd := "/tmp", env := [] },
        [.sys_chdir "/tmp", .sys_fork, .sys_execvp ["echo", "hi"]]⟩ ∧
    parse_command demo
        (.mk .OP_SEQUENTIAL none (leaf (simple "false" .NULL)) (leaf (simple "true" .NULL)))
        0 .NULL proc0 [] = ⟨.ret 0, proc0, []⟩ ∧
    parse_command demo
        (.mk .OP_SEQUENTIAL none (leaf (simple "true" .NULL)) (leaf (simple "false" .NULL)))
        0 .NULL proc0 [] = ⟨.ret 1, proc0, []⟩ :=
  ⟨((sequential_returns_right demo 0 .NULL proc0 []).1 none
      (leaf (simple "cd" (word "/tmp"))) (leaf (simple "echo" (word "hi"))) 0
      { cwd := "/tmp", env := [] } [.sys_chdir "/tmp"] (by rfl)).trans (by rfl),
   ((sequential_returns_right demo 0 .NULL proc0 []).2 none (simple "true" .NULL)
      (simple "false" .NULL) (by rfl) (by rfl)).1,
   ((sequential_returns_right demo 0 .NULL proc0 []).2 none (simple "true" .NULL)
      (simple "false" .NULL) (by rfl) (by rfl)).2⟩

/-- C5. For a node of operator `OP_CONDITIONAL_ZERO`: when the left child
returns 0 the node is the run of the right child from the state the left
child left; when the left child returns a nonzero value the node returns
that value unchanged, in exactly the state and trace the left child left, so
nothing of the right child is run. -/
theorem conditional_zero_result (cx : Ctx) (scmd : Option simple_command_t)
    (A B : command_t) (level : Int) (father : command_t) (p : Proc) (w : World) :
    (∀ (p1 : Proc) (w1 : World),
      parse_command cx A (level + 1) (.mk .OP_CONDITIONAL_ZERO scmd A B) p w =
        ⟨.ret 0, p1, w1⟩ →
      parse_command cx (.mk .OP_CONDITIONAL_ZERO scmd A B) level father p w =
        parse_command cx B (level + 1) (.mk .OP_CONDITIONAL_ZERO scmd A B) p1 w1) ∧
    (∀ (r : Int) (p1 : Proc) (w1 : World),
      parse_command cx A (level + 1) (.mk .OP_CONDITIONAL_ZERO scmd A B) p w =
        ⟨.ret r, p1, w1⟩ → r ≠ 0 →
      parse_command cx (.mk .OP_CONDITIONAL_ZERO scmd A B) level father p w =
        ⟨.ret r, p1, w1⟩) := by
  constructor
  · intro p1 w1 hA
    rw [parse_command_conditional_zero, hA, andThen_ret]
    simp [EXIT_SUCCESS]
  · intro r p1 w1 hA hr
    rw [parse_command_conditional_zero, hA, andThen_ret]
    simp [EXIT_SUCCESS, hr]

/-- C5, at concrete inputs: after `true` the right child `echo hi` is run and
its status returned; after `ls /nonexistent`, which ends with status 2, the
node returns 2 and the trace holds no event of the right child. -/
theorem conditional_zero_result_witness :
    parse_command demo
        (.mk .OP_CONDITIONAL_ZERO none (leaf (simple "true" .NULL))
          (leaf (simple "echo" (word "hi")))) 0 .NULL proc0 [] =
      ⟨.ret 0, proc0, [.sys_fork, .sys_execvp ["echo", "hi"]]⟩ ∧
    parse_command demo
        (.mk .OP_CONDITIONAL_ZERO none (leaf (simple "ls" (word "/nonexistent")))
          (leaf (simple "echo" (word "hi")))) 0 .NULL proc0 [] =
      ⟨.ret 2, proc0, [.sys_fork, .sys_execvp ["ls", "/nonexistent"]]⟩ :=
  ⟨((conditional_zero_result demo none (leaf (simple "true" .NULL))
      (leaf (simple "echo" (word "hi"))) 0 .NULL proc0 []).1 proc0 [] (by rfl)).trans
      (by rfl),
   (conditional_zero_result demo none (leaf (simple "ls" (word "/nonexistent")))
      (leaf (simple "echo" (word "hi"))) 0 .NULL proc0 []).2 2 proc0
      [.sys_fork, .sys_execvp ["ls", "/nonexistent"]] (by rfl) (by decide)⟩


/-- C8. A node whose operator tag is neither `OP_NONE` nor one of the five
connectives makes `parse_command` return `SHELL_EXIT` at once, for every
level and father: the process state and the trace are the ones of the call,
so no child was run and no process was forked. -/
theorem unknown_operator_returns_shell_exit (cx : Ctx) (op : operator_t)
    (scmd : Option simple_command_t) (cmd1 cmd2 : command_t) (level : Int)
    (father : command_t) (p : Proc) (w : World)
    (h0 : op ≠ .OP_NONE) (h1 : op ≠ .OP_SEQUENTIAL) (h2 : op ≠ .OP_PARALLEL)
    (h3 : op ≠ .OP_CONDITIONAL_ZERO) (h4 : op ≠ .OP_CONDITIONAL_NZERO)
    (h5 : op ≠ .OP_PIPE) :
    parse_command cx (.mk op scmd cmd1 cmd2) level father p w =
      ⟨.ret cx.SHELL_EXIT, p, w⟩ := by
  cases op with
  | unknown tag => rfl
  | _ => contradiction

/-- C8, at a concrete input: the node of tag 6 over `cd /tmp` and `echo hi`
returns -100 and leaves the directory, the environment and the trace as
they were. -/
theorem unknown_operator_returns_shell_exit_witness :
    parse_command demo malformed_example 3 malformed_example proc0 [] =
      ⟨.ret (-100), proc0, []⟩ :=
  unknown_operator_returns_shell_exit demo (.unknown 6) none
    (leaf (simple "cd" (word "/tmp"))) (leaf (simple "echo" (word "hi"))) 3
    malformed_example proc0 [] (by decide) (by decide) (by decide) (by decide)
    (by decide) (by decide)

/-! ## The built-in cd -/

/-- C10. For a leaf whose verb is `cd` and that has no argument word, when
`HOME` is not set `parse_simple` returns `EXIT_FAILURE`, which is not 0, and
the process state (working directory and environment) is unchanged, whatever
the redirection targets of the leaf are. -/
theorem cd_without_home_fails (cx : Ctx) (s : simple_command_t) (level : Int)
    (father : command_t) (p : Proc) (w : World)
    (hverb : cx.get_word p.env s.verb = "cd") (hdir : s.params = word_t.NULL)
    (hhome : getenv p.env "HOME" = none) :
    (parse_simple cx (some s) level father p w).out = .ret EXIT_FAILURE ∧
    EXIT_FAILURE ≠ 0 ∧
    (parse_simple cx (some s) level father p w).proc = p := by
  simp [parse_simple, shell_cd, hverb, hdir, hhome, bool_of_int, EXIT_FAILURE]

/-- C10, at a concrete input: `cd > out.txt 2> err.txt` in a process
without `HOME`. -/
theorem cd_without_home_fails_witness :
    (parse_simple demo (some cd_redirected) 0 .NULL proc0 []).out = .ret EXIT_FAILURE ∧
    EXIT_FAILURE ≠ 0 ∧
    (parse_simple demo (some cd_redirected) 0 .NULL proc0 []).proc = proc0 :=
  cd_without_home_fails demo cd_redirected 0 .NULL proc0 [] (by rfl) (by rfl) (by rfl)


/-! ## Forked children: parallel and pipe nodes -/

theorem WEXITSTATUS_W_EXITCODE (code : Int) : WEXITSTATUS (W_EXITCODE code) = code % 256 := by
  unfold WEXITSTATUS W_EXITCODE
  omega

theorem WIFEXITED_W_EXITCODE (code : Int) : WIFEXITED (W_EXITCODE code) = true := by
  unfold WIFEXITED WTERMSIG W_EXITCODE
  simp
  omega

theorem fork_of_return (cx : Ctx) (cmd : Proc → World → Result) (p : Proc) (w : World)
    (ra : Int) (q : Proc) (v : World) (hs : cx.signal (w ++ [.sys_fork]) = none)
    (hc : cmd p (w ++ [.sys_fork]) = ⟨.ret ra, q, v⟩) :
    fork cx (exit_after cmd) p w = (W_EXITCODE ra, v) := by
  simp [fork, hs, exit_after, hc, Result.andThen]

theorem run_in_parallel_eq (cx : Ctx) (cmd1 cmd2 : Proc → World → Result) (p : Proc)
    (w : World) :
    run_in_parallel cx cmd1 cmd2 p w =
      ⟨.ret (if WEXITSTATUS (fork cx (exit_after cmd1) p w).1 = 0 ∧
          WEXITSTATUS (fork cx (exit_after cmd2) p (fork cx (exit_after cmd1) p w).2).1 = 0
        then 0 else 1), p,
        (fork cx (exit_after cmd2) p (fork cx (exit_after cmd1) p w).2).2⟩ := by
  unfold run_in_parallel
  simp only [EXIT_SUCCESS, EXIT_FAILURE, bool_of_int]
  split <;> simp_all

/-- C3. For a parallel node whose two children end normally, with wait
statuses `r0` and `r1`, `parse_command` returns 0 when both exit statuses
are 0 and 1 (`EXIT_FAILURE`) otherwise. The exit status of a child that is
not ended by a signal is the low byte of the result of its subtree. In
particular, when no child is ended by a signal, the parallel node of `true`
and `true` returns 0 and the one of `true` and `false` returns 1. -/
theorem parallel_result (cx : Ctx) (level : Int) (father : command_t) (p : Proc)
    (w : World) :
    (∀ (scmd : Option simple_command_t) (cmd1 cmd2 : command_t) (r0 r1 : Nat)
        (w1 w2 : World),
      fork cx (exit_after (parse_command cx cmd1 (level + 1)
        (.mk .OP_PARALLEL scmd cmd1 cmd2))) p w = (r0, w1) →
      fork cx (exit_after (parse_command cx cmd2 (level + 1)
        (.mk .OP_PARALLEL scmd cmd1 cmd2))) p w1 = (r1, w2) →
      WIFEXITED r0 = true → WIFEXITED r1 = true →
      (parse_command cx (.mk .OP_PARALLEL scmd cmd1 cmd2) level father p w).out =
          .ret (if WEXITSTATUS r0 = 0 ∧ WEXITSTATUS r1 = 0 then 0 else EXIT_FAILURE) ∧
        ((parse_command cx (.mk .OP_PARALLEL scmd cmd1 cmd2) level father p w).out = .ret 0 ↔
          WEXITSTATUS r0 = 0 ∧ WEXITSTATUS r1 = 0)) ∧
    (∀ (run : Proc → World → Result) (w0 : World) (ra : Int) (q : Proc) (v : World),
      cx.signal (w0 ++ [.sys_fork]) = none →
      run p (w0 ++ [.sys_fork]) = ⟨.ret ra, q, v⟩ →
      WIFEXITED (fork cx (exit_after run) p w0).1 = true ∧
        WEXITSTATUS (fork cx (exit_after run) p w0).1 = ra % 256) ∧
    (∀ (scmd : Option simple_command_t) (st sf : simple_command_t),
      cx.get_word p.env st.verb = "true" → cx.get_word p.env sf.verb = "false" →
      (∀ v, cx.signal v = none) →
      (parse_command cx (.mk .OP_PARALLEL scmd (leaf st) (leaf st)) level father p w).out =
          .ret 0 ∧
        (parse_command cx (.mk .OP_PARALLEL scmd (leaf st) (leaf sf)) level father p w).out =
          .ret 1) := by
  refine ⟨?_, ?_, ?_⟩
  · intro scmd cmd1 cmd2 r0 r1 w1 w2 h0 h1 _ _
    rw [parse_command_parallel, run_in_parallel_eq, h0]
    simp only [h1]
    constructor
    · rfl
    · split <;> simp_all
  · intro run w0 ra q v hs hc
    rw [fork_of_return cx run p w0 ra q v hs hc]
    exact ⟨WIFEXITED_W_EXITCODE ra, WEXITSTATUS_W_EXITCODE ra⟩
  · intro scmd st sf ht hf hs
    have ft : ∀ (fa : command_t) (x : World),
        fork cx (exit_after (parse_command cx (leaf st) (level + 1) fa)) p x =
          (W_EXITCODE 0, x ++ [.sys_fork]) := fun fa x =>
      fork_of_return cx _ p x 0 p _ (hs _)
        (by rw [parse_command_leaf, parse_simple_true cx st _ _ p _ ht])
    have ff : ∀ (fa : command_t) (x : World),
        fork cx (exit_after (parse_command cx (leaf sf) (level + 1) fa)) p x =
          (W_EXITCODE 1, x ++ [.sys_fork]) := fun fa x =>
      fork_of_return cx _ p x 1 p _ (hs _)
        (by rw [parse_command_leaf, parse_simple_false cx sf _ _ p _ hf])
    constructor
    · rw [parse_command_parallel, run_in_parallel_eq, ft, ft]
      simp [WEXITSTATUS, W_EXITCODE]
    · rw [parse_command_parallel, run_in_parallel_eq, ft, ff]
      simp [WEXITSTATUS, W_EXITCODE]

/-- C3, at concrete inputs: the parallel nodes of `true`, `true` and of
`true`, `false`, and the node of `echo hi` and `ls /nonexistent`, whose
right child exits with status 2. -/
theorem parallel_result_witness :
    ((parse_command demo
        (.mk .OP_PARALLEL none (leaf (simple "true" .NULL)) (leaf (simple "true" .NULL)))
        0 .NULL proc0 []).out = .ret 0 ∧
      (parse_command demo
        (.mk .OP_PARALLEL none (leaf (simple "true" .NULL)) (leaf (simple "false" .NULL)))
        0 .NULL proc0 []).out = .ret 1) ∧
    (parse_command demo
      (.mk .OP_PARALLEL none (leaf (simple "echo" (word "hi")))
        (leaf (simple "ls" (word "/nonexistent")))) 0 .NULL proc0 []).out = .ret 1 :=
  ⟨(parallel_result demo 0 .NULL proc0 []).2.2 none (simple "true" .NULL)
      (simple "false" .NULL) (by rfl) (by rfl) (fun _ => rfl),
   ((parallel_result demo 0 .NULL proc0 []).1 none (leaf (simple "echo" (word "hi")))
      (leaf (simple "ls" (word "/nonexistent"))) (W_EXITCODE 0) (W_EXITCODE 2)
      [.sys_fork, .sys_fork, .sys_execvp ["echo", "hi"]]
      [.sys_fork, .sys_fork, .sys_execvp ["echo", "hi"], .sys_fork, .sys_fork,
        .sys_execvp ["ls", "/nonexistent"]]
      (by rfl) (by rfl) (by rfl) (by rfl)).1⟩

/-- C9. After `parse_command` on a parallel node or on a pipe node, the
process state of the caller (working directory and environment) is the one
before the call, whatever the two subtrees do, and the call returns. Each
child is forked from that same state: the right child starts from the state
of the caller, not from the state the left child ended in. -/
theorem parallel_pipe_frame (cx : Ctx) (scmd : Option simple_command_t)
    (cmd1 cmd2 : command_t) (level : Int) (father : command_t) (p : Proc) (w : World) :
    (∃ r : Int,
      parse_command cx (.mk .OP_PARALLEL scmd cmd1 cmd2) level father p w =
        ⟨.ret r, p,
          (fork cx (exit_after (parse_command cx cmd2 (level + 1)
              (.mk .OP_PARALLEL scmd cmd1 cmd2))) p
            (fork cx (exit_after (parse_command cx cmd1 (level + 1)
              (.mk .OP_PARALLEL scmd cmd1 cmd2))) p w).2).2⟩) ∧
    (∃ r : Int,
      parse_command cx (.mk .OP_PIPE scmd cmd1 cmd2) level father p w =
        ⟨.ret r, p,
          (fork cx (pipe_side READ STDIN_FILENO (parse_command cx cmd2 (level + 1)
              (.mk .OP_PIPE scmd cmd1 cmd2))) p
            (fork cx (pipe_side WRITE STDOUT_FILENO (parse_command cx cmd1 (level + 1)
              (.mk .OP_PIPE scmd cmd1 cmd2))) p (w ++ [.sys_pipe])).2).2 ++
            [.pipe_close READ, .pipe_close WRITE]⟩) ∧
    (parse_command cx (.mk .OP_PARALLEL scmd cmd1 cmd2) level father p w).proc = p ∧
    (parse_command cx (.mk .OP_PIPE scmd cmd1 cmd2) level father p w).proc = p := by
  refine ⟨?_, ?_, ?_, ?_⟩
  · rw [parse_command_parallel, run_in_parallel_eq]
    exact ⟨_, rfl⟩
  · rw [parse_command_pipe]
    exact ⟨_, rfl⟩
  · rw [parse_command_parallel, run_in_parallel_eq]
  · rw [parse_command_pipe]
    rfl


/-- C9, at concrete inputs: in the parallel node of `X=hi` and `echo $X` and
in the pipe node of `cd /tmp` and `echo $X` the caller keeps its directory
and its empty environment, and the right child does not see the assignment
of the left child (its argument expands to the empty string); in the
sequential node of the same leaves the assignment is made in the caller and
the right child sees it. -/
theorem parallel_pipe_frame_witness :
    (parse_command demo (.mk .OP_PARALLEL none assign_example echo_var_example) 0 .NULL
      proc0 []).proc = proc0 ∧
    (parse_command demo (.mk .OP_PIPE none (leaf (simple "cd" (word "/tmp")))
      echo_var_example) 0 .NULL proc0 []).proc = proc0 ∧
    (parse_command demo (.mk .OP_PARALLEL none assign_example echo_var_example) 0 .NULL
      proc0 []).world = [.sys_fork, .sys_fork, .sys_fork, .sys_execvp ["echo", ""]] ∧
    parse_command demo (.mk .OP_SEQUENTIAL none assign_example echo_var_example) 0 .NULL
      proc0 [] =
      ⟨.ret 0, { cwd := "/", env := [("X", "hi")] },
        [.sys_fork, .sys_execvp ["echo", "hi"]]⟩ :=
  ⟨(parallel_pipe_frame demo none assign_example echo_var_example 0 .NULL proc0 []).2.2.1,
   (parallel_pipe_frame demo none (leaf (simple "cd" (word "/tmp"))) echo_var_example 0
      .NULL proc0 []).2.2.2,
   by decide, by decide⟩

/-! ## Redirection of an external command -/

theorem parse_simple_child_trace (cx : Ctx) (s : simple_command_t) (p : Proc)
    (w0 : World) :
    (w0 ++
        (if s.in_ ≠ word_t.NULL then
          [.sys_open (cx.get_word p.env s.in_) O_RDONLY none, .sys_dup2 STDIN_FILENO]
         else []) ++
        output_redirection cx s p.env ++ [.sys_execvp (cx.get_argv p.env s)]) <+:
      (parse_simple_child cx s p w0).2 := by
  unfold parse_simple_child
  by_cases hin : s.in_ = word_t.NULL
  · simp only [hin, ne_eq, not_true_eq_false, if_false, List.append_nil]
    split
    · exact List.prefix_rfl
    · exact List.prefix_append _ _
  · simp only [hin, ne_eq, not_false_eq_true, if_true]
    split
    · exact List.prefix_rfl
    · exact List.prefix_append _ _

/-- C6, refuted as stated: for `echo hi >> out.txt 2> err.txt` the two paths
differ and the append flag of the error file is not set, yet the error file
is opened with flags 65, `O_CREAT | O_WRONLY`, which hold neither `O_TRUNC`
nor `O_APPEND`. -/
theorem err_flags_counterexample :
    append_out_cmd.io_flags &&& demo.IO_ERR_APPEND = 0 ∧
    demo.get_word proc0.env append_out_cmd.out ≠ demo.get_word proc0.env append_out_cmd.err ∧
    (parse_simple demo (some append_out_cmd) 0 .NULL proc0 []).world =
      [.sys_fork, .sys_open "out.txt" 1089 (some 438), .sys_dup2 1,
        .sys_open "err.txt" 65 (some 438), .sys_dup2 2, .sys_execvp ["echo", "hi"]] ∧
    has_flag 65 O_TRUNC = false ∧ has_flag 65 O_APPEND = false := by
  decide

/-- C6, amended. For an external simple command (the verb is no built-in and
no assignment) whose output and error paths are not both set to the same
text, the child opens the input file (if set), then the output file (if
set), then the error file (if set), each of the latter two with mode 0666,
and then calls `execvp`. The flags of the output file hold `O_CREAT` and
`O_WRONLY`, `O_APPEND` exactly when `IO_OUT_APPEND` is set and `O_TRUNC`
exactly when it is not. The flags of the error file hold `O_CREAT` and
`O_WRONLY`, `O_APPEND` exactly when `IO_ERR_APPEND` is set, and `O_TRUNC`
exactly when neither `IO_ERR_APPEND` nor `IO_OUT_APPEND` is set. -/
theorem redirection_open_flags (cx : Ctx) (s : simple_command_t) (level : Int)
    (father : command_t) (p : Proc) (w : World)
    (htrue : cx.get_word p.env s.verb ≠ "true")
    (hfalse : cx.get_word p.env s.verb ≠ "false")
    (hcd : cx.get_word p.env s.verb ≠ "cd")
    (hexit : cx.get_word p.env s.verb ≠ "exit")
    (hquit : cx.get_word p.env s.verb ≠ "quit")
    (hassign : assignment s.verb = none)
    (hne : ¬ (s.out ≠ word_t.NULL ∧ s.err ≠ word_t.NULL ∧
      cx.get_word p.env s.out = cx.get_word p.env s.err)) :
    (w ++ [.sys_fork] ++
        (if s.in_ ≠ word_t.NULL then
          [.sys_open (cx.get_word p.env s.in_) O_RDONLY none, .sys_dup2 STDIN_FILENO]
         else []) ++
        (if s.out ≠ word_t.NULL then
          [.sys_open (cx.get_word p.env s.out) (out_flags cx s.io_flags) (some 0o666),
            .sys_dup2 STDOUT_FILENO]
         else []) ++
        (if s.err ≠ word_t.NULL then
          [.sys_open (cx.get_word p.env s.err) (err_flags cx s.io_flags) (some 0o666),
            .sys_dup2 STDERR_FILENO]
         else []) ++
        [.sys_execvp (cx.get_argv p.env s)]) <+:
      (parse_simple cx (some s) level father p w).world ∧
    (has_flag (out_flags cx s.io_flags) O_CREAT = true ∧
      has_flag (out_flags cx s.io_flags) O_WRONLY = true ∧
      (has_flag (out_flags cx s.io_flags) O_APPEND = true ↔
        s.io_flags &&& cx.IO_OUT_APPEND ≠ 0) ∧
      (has_flag (out_flags cx s.io_flags) O_TRUNC = true ↔
        s.io_flags &&& cx.IO_OUT_APPEND = 0)) ∧
    (has_flag (err_flags cx s.io_flags) O_CREAT = true ∧
      has_flag (err_flags cx s.io_flags) O_WRONLY = true ∧
      (has_flag (err_flags cx s.io_flags) O_APPEND = true ↔
        s.io_flags &&& cx.IO_ERR_APPEND ≠ 0) ∧
      (has_flag (err_flags cx s.io_flags) O_TRUNC = true ↔
        s.io_flags &&& cx.IO_ERR_APPEND = 0 ∧ s.io_flags &&& cx.IO_OUT_APPEND = 0)) := by
  refine ⟨?_, ?_, ?_⟩
  · have hw : (parse_simple cx (some s) level father p w).world =
        (parse_simple_child cx s p (w ++ [.sys_fork])).2 := by
      simp [parse_simple, htrue, hfalse, hcd, hexit, hquit, hassign]
    have hr := parse_simple_child_trace cx s p (w ++ [.sys_fork])
    rw [hw]
    unfold output_redirection at hr
    rw [if_neg hne] at hr
    simpa only [List.append_assoc] using hr
  · unfold out_flags
    by_cases ho : s.io_flags &&& cx.IO_OUT_APPEND = 0
    · simp only [ho, ne_eq, not_true_eq_false, if_false]
      decide
    · simp only [ho, ne_eq, not_false_eq_true, if_true]
      decide
  · unfold err_flags
    by_cases he : s.io_flags &&& cx.IO_ERR_APPEND = 0
    · by_cases ho : s.io_flags &&& cx.IO_OUT_APPEND = 0
      · simp only [he, ho, ne_eq, not_true_eq_false, if_false, if_true]
        decide
      · simp only [he, ho, ne_eq, not_true_eq_false, if_false]
        decide
    · simp only [he, ne_eq, not_false_eq_true, if_true, false_and]
      decide

/-- C6 amended, at a concrete input: `echo hi >> out.txt 2> err.txt`. The
output file is opened for appending, the error file with neither `O_TRUNC`
nor `O_APPEND`. -/
theorem redirection_open_flags_witness :
    ([] ++ [.sys_fork] ++ [] ++
        [.sys_open "out.txt" (out_flags demo 1) (some 0o666), .sys_dup2 STDOUT_FILENO] ++
        [.sys_open "err.txt" (err_flags demo 1) (some 0o666), .sys_dup2 STDERR_FILENO] ++
        [.sys_execvp ["echo", "hi"]]) <+:
      (parse_simple demo (some append_out_cmd) 0 .NULL proc0 []).world ∧
    (has_flag (out_flags demo 1) O_APPEND = true ↔ 1 &&& demo.IO_OUT_APPEND ≠ 0) ∧
    (has_flag (err_flags demo 1) O_TRUNC = true ↔
      1 &&& demo.IO_ERR_APPEND = 0 ∧ 1 &&& demo.IO_OUT_APPEND = 0) :=
  ⟨(redirection_open_flags demo append_out_cmd 0 .NULL proc0 [] (by decide) (by decide)
      (by decide) (by decide) (by decide) (by rfl) (by decide)).1,
   (redirection_open_flags demo append_out_cmd 0 .NULL proc0 [] (by decide) (by decide)
      (by decide) (by decide) (by decide) (by rfl) (by decide)).2.1.2.2.1,
   (redirection_open_flags demo append_out_cmd 0 .NULL proc0 [] (by decide) (by decide)
      (by decide) (by decide) (by decide) (by rfl) (by decide)).2.2.2.2.2⟩

/-! ## Evaluations at inputs where the code leaves the specification -/

/-- What the code does on a node of operator `OP_CONDITIONAL_NZERO`: the right
child is run only after the left child returned exactly 1; any other result
of the left child is returned as it is. -/
theorem conditional_nzero_code (cx : Ctx) (scmd : Option simple_command_t)
    (A B : command_t) (level : Int) (father : command_t) (p : Proc) (w : World)
    (r : Int) (p1 : Proc) (w1 : World)
    (hA : parse_command cx A (level + 1) (.mk .OP_CONDITIONAL_NZERO scmd A B) p w =
      ⟨.ret r, p1, w1⟩) :
    parse_command cx (.mk .OP_CONDITIONAL_NZERO scmd A B) level father p w =
      if r = 1 then parse_command cx B (level + 1) (.mk .OP_CONDITIONAL_NZERO scmd A B) p1 w1
      else ⟨.ret r, p1, w1⟩ := by
  rw [parse_command_conditional_nzero, hA, andThen_ret]
  rfl

/-- What the code does on a pipe node: the result is the exit status of the
right child converted to `bool`. -/
theorem pipe_code (cx : Ctx) (scmd : Option simple_command_t)
    (A B : command_t) (level : Int) (father : command_t) (p : Proc) (w : World) :
    (parse_command cx (.mk .OP_PIPE scmd A B) level father p w).out =
      .ret (bool_of_int (WEXITSTATUS
        (fork cx (pipe_side READ STDIN_FILENO (parse_command cx B (level + 1)
            (.mk .OP_PIPE scmd A B))) p
          (fork cx (pipe_side WRITE STDOUT_FILENO (parse_command cx A (level + 1)
            (.mk .OP_PIPE scmd A B))) p (w ++ [.sys_pipe])).2).1)) := by
  rw [parse_command_pipe]
  rfl

/-- C1, the code at the failing input `ls /nonexistent || echo hi`: the left
child returns the nonzero status 2, the node returns 2 and the trace holds
no event of the right child; the right child, run from that state, would
have returned 0. -/
theorem conditional_nzero_status_two :
    parse_command demo (leaf (simple "ls" (word "/nonexistent"))) 1 or_example proc0 [] =
      ⟨.ret 2, proc0, [.sys_fork, .sys_execvp ["ls", "/nonexistent"]]⟩ ∧
    parse_command demo or_example 0 .NULL proc0 [] =
      ⟨.ret 2, proc0, [.sys_fork, .sys_execvp ["ls", "/nonexistent"]]⟩ ∧
    parse_command demo (leaf (simple "echo" (word "hi"))) 1 or_example proc0
        [.sys_fork, .sys_execvp ["ls", "/nonexistent"]] =
      ⟨.ret 0, proc0, [.sys_fork, .sys_execvp ["ls", "/nonexistent"], .sys_fork,
        .sys_execvp ["echo", "hi"]]⟩ := by
  decide

/-- C2, the code at the failing input `echo hi | ls /nonexistent`: both
children end normally, the right child with exit status 2, and the node
returns 1. -/
theorem pipe_status_two :
    WIFEXITED (fork demo (pipe_side WRITE STDOUT_FILENO
      (parse_command demo (leaf (simple "echo" (word "hi"))) 1 pipe_example)) proc0
      [.sys_pipe]).1 = true ∧
    (fork demo (pipe_side READ STDIN_FILENO
      (parse_command demo (leaf (simple "ls" (word "/nonexistent"))) 1 pipe_example)) proc0
      (fork demo (pipe_side WRITE STDOUT_FILENO
        (parse_command demo (leaf (simple "echo" (word "hi"))) 1 pipe_example)) proc0
        [.sys_pipe]).2).1 = W_EXITCODE 2 ∧
    WIFEXITED (W_EXITCODE 2) = true ∧ WEXITSTATUS (W_EXITCODE 2) = 2 ∧
    (parse_command demo pipe_example 0 .NULL proc0 []).out = .ret 1 := by
  decide

/-- C7, refuted as stated: in `echo hi & true`, when the process forked for
the left child is ended by signal 9, its wait status is 9, a termination by
signal with exit-status byte 0, the right child exits with 0, and the node
returns `EXIT_SUCCESS`. -/
theorem parallel_killed_child :
    (fork demo_kill (exit_after
      (parse_command demo_kill (leaf (simple "echo" (word "hi"))) 1 parallel_example))
      proc0 []).1 = 9 ∧
    WIFSIGNALED 9 = true ∧ WIFEXITED 9 = false ∧ WTERMSIG 9 = 9 ∧ WEXITSTATUS 9 = 0 ∧
    run_in_parallel demo_kill
      (parse_command demo_kill (leaf (simple "echo" (word "hi"))) 1 parallel_example)
      (parse_command demo_kill (leaf (simple "true" .NULL)) 1 parallel_example) proc0 [] =
      ⟨.ret EXIT_SUCCESS, proc0, [.sys_fork, .sys_fork]⟩ ∧
    parse_command demo_kill parallel_example 0 .NULL proc0 [] =
      ⟨.ret EXIT_SUCCESS, proc0, [.sys_fork, .sys_fork]⟩ := by
  decide

/-- C7, amended. A parallel node looks only at the exit-status bytes of the
two wait statuses, never at the termination signal. When one child is ended
by a signal, so that its exit-status byte is 0, the result is decided by the
other child alone: `EXIT_FAILURE` when the exit-status byte of the other
child is not 0, and 0 when it is 0. A forked shell that the context ends by
a signal has a wait status whose exit-status byte is 0. -/
theorem parallel_signalled_child (cx : Ctx) (scmd : Option simple_command_t)
    (cmd1 cmd2 : command_t) (level : Int) (father : command_t) (p : Proc) (w : World)
    (r0 r1 : Nat) (w1 w2 : World)
    (h0 : fork cx (exit_after (parse_command cx cmd1 (level + 1)
      (.mk .OP_PARALLEL scmd cmd1 cmd2))) p w = (r0, w1))
    (h1 : fork cx (exit_after (parse_command cx cmd2 (level + 1)
      (.mk .OP_PARALLEL scmd cmd1 cmd2))) p w1 = (r1, w2)) :
    (WIFSIGNALED r0 = true → WEXITSTATUS r0 = 0 →
      (parse_command cx (.mk .OP_PARALLEL scmd cmd1 cmd2) level father p w).out =
        .ret (if WEXITSTATUS r1 = 0 then 0 else EXIT_FAILURE)) ∧
    (WIFSIGNALED r1 = true → WEXITSTATUS r1 = 0 →
      (parse_command cx (.mk .OP_PARALLEL scmd cmd1 cmd2) level father p w).out =
        .ret (if WEXITSTATUS r0 = 0 then 0 else EXIT_FAILURE)) ∧
    (∀ sig : Nat, cx.signal (w ++ [.sys_fork]) = some sig →
      r0 = sig % 128 ∧ WEXITSTATUS r0 = 0) ∧
    (∀ sig : Nat, cx.signal (w1 ++ [.sys_fork]) = some sig →
      r1 = sig % 128 ∧ WEXITSTATUS r1 = 0) := by
  have hsig : ∀ sig : Nat, WEXITSTATUS (sig % 128) = 0 := by
    intro sig
    unfold WEXITSTATUS
    omega
  refine ⟨?_, ?_, ?_, ?_⟩
  · intro _ hz
    rw [parse_command_parallel, run_in_parallel_eq, h0]
    simp only [h1, hz, true_and]
    rfl
  · intro _ hz
    rw [parse_command_parallel, run_in_parallel_eq, h0]
    simp only [h1, hz, and_true]
    rfl
  · intro sig hs
    have hr : r0 = sig % 128 := by
      have := h0
      simp only [fork, hs] at this
      exact (congrArg Prod.fst this).symm
    exact ⟨hr, by rw [hr]; exact hsig sig⟩
  · intro sig hs
    have hr : r1 = sig % 128 := by
      have := h1
      simp only [fork, hs] at this
      exact (congrArg Prod.fst this).symm
    exact ⟨hr, by rw [hr]; exact hsig sig⟩

/-- C7 amended, at a concrete input: `echo hi & true` with the left child
ended by signal 9 returns 0. -/
theorem parallel_signalled_child_witness :
    (parse_command demo_kill parallel_example 0 .NULL proc0 []).out = .ret 0 :=
  (parallel_signalled_child demo_kill none (leaf (simple "echo" (word "hi")))
    (leaf (simple "true" .NULL)) 0 .NULL proc0 [] 9 0 [.sys_fork] [.sys_fork, .sys_fork]
    (by rfl) (by rfl)).1 (by rfl) (by rfl)

end Cmd
